import Mathlib

/-!
Shallow embedding of the summarization request pipeline of the
YouTube-summarizer service: the video-identifier extractor, the
transcript fetcher, the prompt builders, the provider configuration
table and the request handler of the multi-provider revision, together
with the single-provider X.AI revision of the handler
(src/app/api/summarize/route.ts).  External collaborators (transcript
retrieval, chat completion) are modelled as explicit oracle functions
passed to the handler; a call log records which collaborators were
invoked while handling a request.  Thrown JavaScript errors are
modelled as `Except.error` carrying the error message.
-/

/-- Character class of the identifier patterns: `[0-9A-Za-z_-]`. -/
def isIdChar (c : Char) : Bool :=
  c.isAlphanum || c == '_' || c == '-'

/-- Consume exactly 11 identifier characters (the `{11}` quantifier of the
identifier patterns); fails when fewer than 11 characters remain or when
one of them is outside the class. -/
def takeId : List Char → Option (List Char)
  | c0 :: c1 :: c2 :: c3 :: c4 :: c5 :: c6 :: c7 :: c8 :: c9 :: c10 :: _ =>
    if isIdChar c0 && isIdChar c1 && isIdChar c2 && isIdChar c3 && isIdChar c4 &&
        isIdChar c5 && isIdChar c6 && isIdChar c7 && isIdChar c8 && isIdChar c9 &&
        isIdChar c10 then
      some [c0, c1, c2, c3, c4, c5, c6, c7, c8, c9, c10]
    else none
  | _ => none

/-- Match of the first pattern of `extractVideoId`, anchored at the current
position: alternation of the two-character literal `v=` and the single
character `/`, followed by 11 identifier characters (the trailing `.*`
of the pattern constrains nothing).  The alternation tries `v=` first,
exactly as written in the source pattern. -/
def pat1Here : List Char → Option (List Char)
  | c :: d :: rest =>
    if c == 'v' && d == '=' then takeId rest
    else if c == '/' then takeId (d :: rest)
    else none
  | _ => none

/-- Consume a fixed literal from the front of the character list. -/
def dropLit : List Char → List Char → Option (List Char)
  | [], cs => some cs
  | _ :: _, [] => none
  | l :: ls, c :: cs => if c == l then dropLit ls cs else none

/-- Match of a literal-anchored pattern (the second and third patterns of
`extractVideoId`): the given literal followed by 11 identifier
characters, anchored at the current position. -/
def litHere (lit : List Char) (cs : List Char) : Option (List Char) :=
  match dropLit lit cs with
  | some rest => takeId rest
  | none => none

/-- Scan for the leftmost position at which the anchored matcher succeeds,
exactly as an unanchored regular-expression search does. -/
def scanPat (here : List Char → Option (List Char)) : List Char → Option (List Char)
  | [] => none
  | c :: cs =>
    match here (c :: cs) with
    | some r => some r
    | none => scanPat here cs

/-- `extractVideoId` of the source: tries the three patterns in their fixed
order and returns the captured 11-character group of the first pattern
that matches anywhere in the reference, `none` when no pattern matches. -/
def extractVideoId (url : String) : Option String :=
  match scanPat pat1Here url.data with
  | some r => some (String.mk r)
  | none =>
    match scanPat (litHere "youtu.be/".data) url.data with
    | some r => some (String.mk r)
    | none =>
      match scanPat (litHere "embed/".data) url.data with
      | some r => some (String.mk r)
      | none => none

/-- Caption segment as returned by the transcript-retrieval collaborator.
Durations and offsets play no role in the pipeline and are modelled as
naturals. -/
structure TranscriptSegment where
  text : String
  duration : Nat
  offset : Nat

/-- `getTranscript` of the source: asks the retrieval collaborator for the
segments of the video and joins their `text` fields with single spaces;
a thrown retrieval error is caught and returned as the second component
of the pair, mirroring the `[string or null, string or null]` tuple of
the source. -/
def getTranscript (fetch : String → Except String (List TranscriptSegment))
    (videoId : String) : Option String × Option String :=
  match fetch videoId with
  | .ok segs => (some (String.intercalate " " (segs.map TranscriptSegment.text)), none)
  | .error e => (none, some e)

/-- Rendering of a possibly-null JavaScript string inside a template
literal: `null` prints as the four characters `null`. -/
def jsShow : Option String → String
  | some s => s
  | none => "null"

/-- Token usage breakdown of a successful summary. -/
structure TokenInfo where
  total : Nat
  prompt : Nat
  completion : Nat

/-- Body of a successful response of the endpoint. -/
structure SummaryResponse where
  success : Bool
  summary : String
  model : String
  tokens : TokenInfo

/-- The single response produced for a request: either a success body or a
failure with an HTTP status and a `detail` string. -/
inductive ApiResponse where
  | success (result : SummaryResponse)
  | failure (status : Nat) (detail : String)

/-- Record of the external calls made while handling one request. -/
structure CallLog where
  transcriptCalls : List String
  completionCalls : Nat

/-- Message part of a chat-completion choice; its `content` may be null. -/
structure ChatMessage where
  content : Option String

/-- One choice of a chat-completion response. -/
structure Choice where
  message : Option ChatMessage

/-- Usage counters of a chat-completion response; each counter may be
absent. -/
structure Usage where
  total_tokens : Option Nat
  prompt_tokens : Option Nat
  completion_tokens : Option Nat

/-- Response of the chat-completion collaborator. -/
structure ChatResponse where
  choices : List Choice
  usage : Option Usage

/-- The optional-chaining access `response.choices[0]?.message?.content`. -/
def contentOf (resp : ChatResponse) : Option String :=
  (resp.choices.head?.bind Choice.message).bind ChatMessage.content

/-- JavaScript truthiness of an optional string: false for undefined and
for the empty string. -/
def truthyStr : Option String → Bool
  | some s => decide (s ≠ "")
  | none => false

/-- Does the second character list start with the first? Model of
JavaScript `String.prototype.startsWith` applied to the character
lists of the strings. -/
def startsWithChars : List Char → List Char → Bool
  | [], _ => true
  | _ :: _, [] => false
  | p :: ps, c :: cs => p == c && startsWithChars ps cs

/-- Model of JavaScript `String.prototype.trim`: strip leading and
trailing whitespace. -/
def jsTrim (s : String) : String :=
  String.mk (((s.data.dropWhile Char.isWhitespace).reverse.dropWhile Char.isWhitespace).reverse)

/-- One entry of the static provider configuration table. -/
structure LLMConfig where
  model : String
  baseURL : String

/-- Argument record of one chat-completion call: everything the source
passes to `client.chat.completions.create` together with the client
construction arguments.  The sampling temperature is recorded in
tenths to stay within exact arithmetic. -/
structure CompletionRequest where
  model : String
  baseURL : String
  system : String
  user : String
  apiKey : String
  maxTokens : Nat
  temperatureTenths : Nat

namespace Summarize

/-- Request body of the multi-provider revision of the endpoint.  The
fields arrive from JSON, so the enumerated fields are raw strings at
runtime; `custom_prompt` is optional. -/
structure SummaryRequest where
  youtube_url : String
  api_key : String
  output_language : String
  summary_type : String
  custom_prompt : Option String
  llm_provider : String

/-- `createSystemMessage` of the multi-provider revision. -/
def createSystemMessage (targetLanguage : String) : String :=
  "You are a helpful assistant that provides an accurate and relevant response to a user prompt, based on a video transcript they provide. Make sure your response sounds natural and fluent in "
    ++ targetLanguage ++ "."

/-- `createPrompt` of the multi-provider revision: three templates selected
by `summaryType`, the custom template only when the custom prompt is
truthy, and the detailed template as the fallback for every other
case. -/
def createPrompt (transcript : String) (summaryType : String) (targetLanguage : String)
    (customPrompt : Option String) : String :=
  if summaryType == "short" then
    "Please provide a very concise summary of the following transcript in "
      ++ targetLanguage
      ++ ". Format your response as plain bullet points (without bold formatting), using a maximum of 4 sentences:\n\n"
      ++ transcript
  else if summaryType == "custom" && truthyStr customPrompt then
    "Please provide your response in " ++ targetLanguage ++ ". User prompt:\n\n"
      ++ customPrompt.getD "" ++ "\n\n\n\nTranscript:\n\n" ++ transcript
  else
    "Please provide a detailed full summary of the following transcript. Provide the summary in "
      ++ targetLanguage ++ ":\n\n" ++ transcript

/-- The static `LLM_CONFIGS` table: four providers, each with one fixed
model identifier and one fixed base URL; every other selector is
absent from the table. -/
def LLM_CONFIGS : String → Option LLMConfig
  | "deepseek" => some ⟨"deepseek-chat", "https://api.deepseek.com"⟩
  | "gemini" => some ⟨"gemini-2.0-flash-exp", "https://generativelanguage.googleapis.com/v1beta/"⟩
  | "xai" => some ⟨"grok-2-1212", "https://api.x.ai/v1"⟩
  | "openai" => some ⟨"gpt-4o", "https://api.openai.com/v1"⟩
  | _ => none

/-- The chat-completion call the handler issues: resolved model and base
URL, the system message, the constructed prompt, the user credential,
and the fixed generation parameters (`max_tokens: 2048`,
`temperature: 0.7`). -/
def completionArgs (config : LLMConfig) (req : SummaryRequest) (transcript : String) :
    CompletionRequest :=
  ⟨config.model, config.baseURL, createSystemMessage req.output_language,
    createPrompt transcript req.summary_type req.output_language req.custom_prompt,
    req.api_key, 2048, 7⟩

/-- The `POST` handler of the multi-provider revision, with the transcript
retriever and the chat-completion client as oracles.  Every branch of
the source handler is mirrored: missing fields, unparseable reference,
falsy transcript (null or empty), unknown provider, thrown completion
error (caught by the surrounding try and converted to a 500 with the
error message), falsy completion content (thrown, then caught by the
same try), and the successful shaping with zero-defaulted usage
counters. -/
def post (fetch : String → Except String (List TranscriptSegment))
    (complete : CompletionRequest → Except String ChatResponse)
    (req : SummaryRequest) : ApiResponse × CallLog :=
  if req.youtube_url == "" || req.api_key == "" then
    (.failure 400 "Please provide both YouTube URL and API key", ⟨[], 0⟩)
  else
    match extractVideoId req.youtube_url with
    | none => (.failure 400 "Invalid YouTube URL. Please check and try again.", ⟨[], 0⟩)
    | some videoId =>
      match getTranscript fetch videoId with
      | (none, err) =>
        (.failure 400 ("Failed to retrieve transcript: " ++ jsShow err), ⟨[videoId], 0⟩)
      | (some transcript, err) =>
        if transcript == "" then
          (.failure 400 ("Failed to retrieve transcript: " ++ jsShow err), ⟨[videoId], 0⟩)
        else
          match LLM_CONFIGS req.llm_provider with
          | none => (.failure 400 "Invalid LLM provider selected", ⟨[videoId], 0⟩)
          | some config =>
            match complete (completionArgs config req transcript) with
            | .error e => (.failure 500 e, ⟨[videoId], 1⟩)
            | .ok resp =>
              match contentOf resp with
              | none => (.failure 500 "No response content from API", ⟨[videoId], 1⟩)
              | some content =>
                if content == "" then
                  (.failure 500 "No response content from API", ⟨[videoId], 1⟩)
                else
                  (.success ⟨true, jsTrim content, config.model,
                      ⟨(resp.usage.bind Usage.total_tokens).getD 0,
                        (resp.usage.bind Usage.prompt_tokens).getD 0,
                        (resp.usage.bind Usage.completion_tokens).getD 0⟩⟩,
                    ⟨[videoId], 1⟩)

end Summarize

namespace XaiRoute

/-- Request body of the single-provider X.AI revision of the endpoint. -/
structure SummaryRequest where
  youtube_url : String
  api_key : String
  output_language : String
  summary_type : String
  custom_prompt : Option String

/-- `createSystemMessage` of the X.AI revision. -/
def createSystemMessage (targetLanguage : String) : String :=
  "You are an assistant that summarizes text. Always provide your response in "
    ++ targetLanguage ++ ". Make sure the summary sounds natural and fluent in "
    ++ targetLanguage ++ "."

/-- `createPrompt` of the X.AI revision. -/
def createPrompt (transcript : String) (summaryType : String) (targetLanguage : String)
    (customPrompt : Option String) : String :=
  if summaryType == "short" then
    "Please provide a very concise summary of the following transcript, using a maximum of 4 sentences in bullet points. Provide the summary in "
      ++ targetLanguage ++ ":\n\n" ++ transcript
  else if summaryType == "custom" && truthyStr customPrompt then
    customPrompt.getD "" ++ "\n\nProvide the response in " ++ targetLanguage
      ++ ".\n\nTranscript:\n" ++ transcript
  else
    "Please provide a comprehensive summary of the following transcript. Provide the summary in "
      ++ targetLanguage ++ ":\n\n" ++ transcript

/-- The chat-completion call of the X.AI revision: fixed model
`grok-beta`, fixed base URL, `max_tokens: 300`, `temperature: 0.5`. -/
def completionArgs (req : SummaryRequest) (transcript : String) : CompletionRequest :=
  ⟨"grok-beta", "https://api.x.ai/v1", createSystemMessage req.output_language,
    createPrompt transcript req.summary_type req.output_language req.custom_prompt,
    req.api_key, 300, 5⟩

/-- The `POST` handler of the X.AI revision: after the missing-field
check it rejects any credential that does not start with `xai-`,
before identifier extraction and before either external call; the
rest of the pipeline mirrors the multi-provider revision with the
fixed X.AI configuration. -/
def post (fetch : String → Except String (List TranscriptSegment))
    (complete : CompletionRequest → Except String ChatResponse)
    (req : SummaryRequest) : ApiResponse × CallLog :=
  if req.youtube_url == "" || req.api_key == "" then
    (.failure 400 "Please provide both YouTube URL and API key", ⟨[], 0⟩)
  else if !startsWithChars "xai-".data req.api_key.data then
    (.failure 400 "Invalid API key format. X.AI API keys should start with 'xai-'", ⟨[], 0⟩)
  else
    match extractVideoId req.youtube_url with
    | none => (.failure 400 "Invalid YouTube URL. Please check and try again.", ⟨[], 0⟩)
    | some videoId =>
      match getTranscript fetch videoId with
      | (none, err) =>
        (.failure 400 ("Failed to retrieve transcript: " ++ jsShow err), ⟨[videoId], 0⟩)
      | (some transcript, err) =>
        if transcript == "" then
          (.failure 400 ("Failed to retrieve transcript: " ++ jsShow err), ⟨[videoId], 0⟩)
        else
          match complete (completionArgs req transcript) with
          | .error e => (.failure 500 e, ⟨[videoId], 1⟩)
          | .ok resp =>
            match contentOf resp with
            | none => (.failure 500 "No response content from API", ⟨[videoId], 1⟩)
            | some content =>
              if content == "" then
                (.failure 500 "No response content from API", ⟨[videoId], 1⟩)
              else
                (.success ⟨true, jsTrim content, "grok-beta",
                    ⟨(resp.usage.bind Usage.total_tokens).getD 0,
                      (resp.usage.bind Usage.prompt_tokens).getD 0,
                      (resp.usage.bind Usage.completion_tokens).getD 0⟩⟩,
                  ⟨[videoId], 1⟩)

end XaiRoute

/-! ## Helper lemmas -/

/-- A scan finds nothing when the anchored matcher fails at every
position. -/
theorem scanPat_eq_none_of (here : List Char → Option (List Char)) (cs : List Char)
    (h : ∀ n : Nat, here (cs.drop n) = none) : scanPat here cs = none := by
  induction cs with
  | nil => rfl
  | cons c cs ih =>
    have h0 := h 0
    simp only [List.drop] at h0
    have hrest : ∀ n : Nat, here (cs.drop n) = none := by
      intro n
      have := h (n + 1)
      simpa using this
    simp [scanPat, h0, ih hrest]

/-! ## Claims -/

/-- Claim C1: for every 11-character identifier over the identifier
alphabet, the canonical watch-URL form, the short-link form and the
embed-link form — each with an arbitrary (possibly empty) trailing
remainder of query parameters or path segments — all yield that same
identifier from `extractVideoId`, which returns the first match of the
patterns tried in their fixed priority order; and for every reference
at no position of which any of the three identifier patterns matches,
`extractVideoId` returns `none`. -/
theorem claim_C1_extract_identifier_formats
    (c0 c1 c2 c3 c4 c5 c6 c7 c8 c9 c10 : Char) (suffix : String)
    (h0 : isIdChar c0 = true) (h1 : isIdChar c1 = true) (h2 : isIdChar c2 = true)
    (h3 : isIdChar c3 = true) (h4 : isIdChar c4 = true) (h5 : isIdChar c5 = true)
    (h6 : isIdChar c6 = true) (h7 : isIdChar c7 = true) (h8 : isIdChar c8 = true)
    (h9 : isIdChar c9 = true) (h10 : isIdChar c10 = true) :
    extractVideoId ("https://www.youtube.com/watch?v="
        ++ String.mk [c0, c1, c2, c3, c4, c5, c6, c7, c8, c9, c10] ++ suffix)
      = some (String.mk [c0, c1, c2, c3, c4, c5, c6, c7, c8, c9, c10])
    ∧ extractVideoId ("https://youtu.be/"
        ++ String.mk [c0, c1, c2, c3, c4, c5, c6, c7, c8, c9, c10] ++ suffix)
      = some (String.mk [c0, c1, c2, c3, c4, c5, c6, c7, c8, c9, c10])
    ∧ extractVideoId ("https://www.youtube.com/embed/"
        ++ String.mk [c0, c1, c2, c3, c4, c5, c6, c7, c8, c9, c10] ++ suffix)
      = some (String.mk [c0, c1, c2, c3, c4, c5, c6, c7, c8, c9, c10])
    ∧ ∀ url : String,
        (∀ n : Nat, pat1Here (url.data.drop n) = none
          ∧ litHere "youtu.be/".data (url.data.drop n) = none
          ∧ litHere "embed/".data (url.data.drop n) = none) →
        extractVideoId url = none := by
  refine ⟨?_, ?_, ?_, ?_⟩
  · have hd : ("https://www.youtube.com/watch?v="
        ++ String.mk [c0, c1, c2, c3, c4, c5, c6, c7, c8, c9, c10] ++ suffix).data
      = 'h' :: 't' :: 't' :: 'p' :: 's' :: ':' :: '/' :: '/' :: 'w' :: 'w' :: 'w' :: '.' :: 'y' :: 'o' :: 'u' :: 't' :: 'u' :: 'b' :: 'e' :: '.' :: 'c' :: 'o' :: 'm' :: '/' :: 'w' :: 'a' :: 't' :: 'c' :: 'h' :: '?' :: 'v' :: '=' :: c0 :: c1 :: c2 :: c3 :: c4 :: c5 :: c6 :: c7 :: c8 :: c9 :: c10 :: suffix.data := rfl
    have hscan : scanPat pat1Here ('h' :: 't' :: 't' :: 'p' :: 's' :: ':' :: '/' :: '/' :: 'w' :: 'w' :: 'w' :: '.' :: 'y' :: 'o' :: 'u' :: 't' :: 'u' :: 'b' :: 'e' :: '.' :: 'c' :: 'o' :: 'm' :: '/' :: 'w' :: 'a' :: 't' :: 'c' :: 'h' :: '?' :: 'v' :: '=' :: c0 :: c1 :: c2 :: c3 :: c4 :: c5 :: c6 :: c7 :: c8 :: c9 :: c10 :: suffix.data)
        = some [c0, c1, c2, c3, c4, c5, c6, c7, c8, c9, c10] := by
      simp +decide [scanPat, pat1Here, takeId, h0, h1, h2, h3, h4, h5, h6, h7, h8, h9, h10]
    simp [extractVideoId, hd, hscan]
  · have hd : ("https://youtu.be/"
        ++ String.mk [c0, c1, c2, c3, c4, c5, c6, c7, c8, c9, c10] ++ suffix).data
      = 'h' :: 't' :: 't' :: 'p' :: 's' :: ':' :: '/' :: '/' :: 'y' :: 'o' :: 'u' :: 't' :: 'u' :: '.' :: 'b' :: 'e' :: '/' :: c0 :: c1 :: c2 :: c3 :: c4 :: c5 :: c6 :: c7 :: c8 :: c9 :: c10 :: suffix.data := rfl
    have hscan : scanPat pat1Here ('h' :: 't' :: 't' :: 'p' :: 's' :: ':' :: '/' :: '/' :: 'y' :: 'o' :: 'u' :: 't' :: 'u' :: '.' :: 'b' :: 'e' :: '/' :: c0 :: c1 :: c2 :: c3 :: c4 :: c5 :: c6 :: c7 :: c8 :: c9 :: c10 :: suffix.data)
        = some [c0, c1, c2, c3, c4, c5, c6, c7, c8, c9, c10] := by
      simp +decide [scanPat, pat1Here, takeId, h0, h1, h2, h3, h4, h5, h6, h7, h8, h9, h10]
    simp [extractVideoId, hd, hscan]
  · have hd : ("https://www.youtube.com/embed/"
        ++ String.mk [c0, c1, c2, c3, c4, c5, c6, c7, c8, c9, c10] ++ suffix).data
      = 'h' :: 't' :: 't' :: 'p' :: 's' :: ':' :: '/' :: '/' :: 'w' :: 'w' :: 'w' :: '.' :: 'y' :: 'o' :: 'u' :: 't' :: 'u' :: 'b' :: 'e' :: '.' :: 'c' :: 'o' :: 'm' :: '/' :: 'e' :: 'm' :: 'b' :: 'e' :: 'd' :: '/' :: c0 :: c1 :: c2 :: c3 :: c4 :: c5 :: c6 :: c7 :: c8 :: c9 :: c10 :: suffix.data := rfl
    have hscan : scanPat pat1Here ('h' :: 't' :: 't' :: 'p' :: 's' :: ':' :: '/' :: '/' :: 'w' :: 'w' :: 'w' :: '.' :: 'y' :: 'o' :: 'u' :: 't' :: 'u' :: 'b' :: 'e' :: '.' :: 'c' :: 'o' :: 'm' :: '/' :: 'e' :: 'm' :: 'b' :: 'e' :: 'd' :: '/' :: c0 :: c1 :: c2 :: c3 :: c4 :: c5 :: c6 :: c7 :: c8 :: c9 :: c10 :: suffix.data)
        = some [c0, c1, c2, c3, c4, c5, c6, c7, c8, c9, c10] := by
      simp +decide [scanPat, pat1Here, takeId, h0, h1, h2, h3, h4, h5, h6, h7, h8, h9, h10]
    simp [extractVideoId, hd, hscan]
  · intro url h
    have hp1 : scanPat pat1Here url.data = none :=
      scanPat_eq_none_of _ _ (fun n => (h n).1)
    have hp2 : scanPat (litHere "youtu.be/".data) url.data = none :=
      scanPat_eq_none_of _ _ (fun n => (h n).2.1)
    have hp3 : scanPat (litHere "embed/".data) url.data = none :=
      scanPat_eq_none_of _ _ (fun n => (h n).2.2)
    simp [extractVideoId, hp1, hp2, hp3]

/-- Witness for C1 at a concrete identifier and trailing query string. -/
theorem claim_C1_witness :
    extractVideoId "https://www.youtube.com/watch?v=dQw4w9WgXcQ&t=30s" = some "dQw4w9WgXcQ" :=
  (claim_C1_extract_identifier_formats 'd' 'Q' 'w' '4' 'w' '9' 'W' 'g' 'X' 'c' 'Q' "&t=30s"
    (by decide) (by decide) (by decide) (by decide) (by decide) (by decide) (by decide)
    (by decide) (by decide) (by decide) (by decide)).1

/-- Counterexample for C2: with summary type `custom` and an empty custom
prompt, `createPrompt` of the multi-provider revision returns the very
string the `detailed` branch returns — a silent coercion to the
detailed template instead of the rejection the claim asserts. -/
theorem claim_C2_counterexample :
    Summarize.createPrompt "some transcript" "custom" "English" (some "")
        = Summarize.createPrompt "some transcript" "detailed" "English" none
    ∧ Summarize.createPrompt "some transcript" "custom" "English" (some "")
        = "Please provide a detailed full summary of the following transcript. Provide the summary in English:\n\nsome transcript" :=
  ⟨rfl, rfl⟩

/-- Claim C2 (amended): for every request with summary type `custom` and
an empty (or absent) custom prompt, `createPrompt` silently falls back
to the detailed template; no rejection of the input happens anywhere
before the completion call. -/
theorem claim_C2_custom_empty_falls_back (transcript lang : String) :
    Summarize.createPrompt transcript "custom" lang (some "")
        = "Please provide a detailed full summary of the following transcript. Provide the summary in "
          ++ lang ++ ":\n\n" ++ transcript
    ∧ Summarize.createPrompt transcript "custom" lang none
        = "Please provide a detailed full summary of the following transcript. Provide the summary in "
          ++ lang ++ ":\n\n" ++ transcript := by
  constructor <;> simp [Summarize.createPrompt, truthyStr]

/-- Counterexample for C3: a request with the unlisted provider selector
`unknown-llm` does produce the explicit invalid-provider error, but the
call log shows the transcript retrieval collaborator was invoked — an
external call is made before the provider is validated, contradicting
the claim that the error is reported with no external calls. -/
theorem claim_C3_counterexample :
    (Summarize.post (fun _ => Except.ok [⟨"hello", 1, 0⟩]) (fun _ => Except.ok ⟨[], none⟩)
        ⟨"https://www.youtube.com/watch?v=dQw4w9WgXcQ", "key-1", "English", "short", none,
          "unknown-llm"⟩).1
      = ApiResponse.failure 400 "Invalid LLM provider selected"
    ∧ (Summarize.post (fun _ => Except.ok [⟨"hello", 1, 0⟩]) (fun _ => Except.ok ⟨[], none⟩)
        ⟨"https://www.youtube.com/watch?v=dQw4w9WgXcQ", "key-1", "English", "short", none,
          "unknown-llm"⟩).2.transcriptCalls
      = ["dQw4w9WgXcQ"] :=
  ⟨rfl, rfl⟩

/-- Claim C3 (amended): for every request whose provider selector is not
in the static configuration table, the pipeline fails with the explicit
invalid-provider error and no completion call is made; the transcript
fetch, however, is performed before provider validation, so the error
is not reported before all external calls. -/
theorem claim_C3_invalid_provider_after_transcript
    (fetch : String → Except String (List TranscriptSegment))
    (complete : CompletionRequest → Except String ChatResponse)
    (req : Summarize.SummaryRequest) (v : String) (segs : List TranscriptSegment)
    (hu : req.youtube_url ≠ "") (hk : req.api_key ≠ "")
    (hv : extractVideoId req.youtube_url = some v)
    (hf : fetch v = Except.ok segs)
    (ht : String.intercalate " " (segs.map TranscriptSegment.text) ≠ "")
    (hp : Summarize.LLM_CONFIGS req.llm_provider = none) :
    Summarize.post fetch complete req
      = (ApiResponse.failure 400 "Invalid LLM provider selected", ⟨[v], 0⟩) := by
  simp [Summarize.post, hu, hk, hv, getTranscript, hf, ht, hp]

/-- Witness for the amended C3 at a concrete request. -/
theorem claim_C3_witness :
    Summarize.post (fun _ => Except.ok [⟨"hello", 1, 0⟩]) (fun _ => Except.ok ⟨[], none⟩)
        ⟨"https://www.youtube.com/watch?v=dQw4w9WgXcQ", "key-2", "English", "short", none,
          "unknown-llm"⟩
      = (ApiResponse.failure 400 "Invalid LLM provider selected", ⟨["dQw4w9WgXcQ"], 0⟩) :=
  claim_C3_invalid_provider_after_transcript _ _ _ "dQw4w9WgXcQ" [⟨"hello", 1, 0⟩]
    (by decide) (by decide) rfl rfl (by decide) rfl

/-- Claim C4: for every request and every behaviour of the two external
collaborators, the handler produces exactly one of a success result or
a failure detail — never both, never neither; every failure path ends
in a structured failure response rather than abnormal termination. -/
theorem claim_C4_exactly_one_outcome
    (fetch : String → Except String (List TranscriptSegment))
    (complete : CompletionRequest → Except String ChatResponse)
    (req : Summarize.SummaryRequest) :
    ((∃ r, (Summarize.post fetch complete req).1 = ApiResponse.success r)
        ∧ ∀ s d, (Summarize.post fetch complete req).1 ≠ ApiResponse.failure s d)
    ∨ ((∃ s d, (Summarize.post fetch complete req).1 = ApiResponse.failure s d)
        ∧ ∀ r, (Summarize.post fetch complete req).1 ≠ ApiResponse.success r) := by
  cases hp : (Summarize.post fetch complete req).1 with
  | success r => exact Or.inl ⟨⟨r, rfl⟩, by intro s d hsd; cases hsd⟩
  | failure s d => exact Or.inr ⟨⟨s, d, rfl⟩, by intro r hr; cases hr⟩

/-- Claim C5: when the retrieval collaborator returns an ordered sequence
of segments, `getTranscript` joins their `text` fields with single
spaces preserving the original order; in particular texts
`["a", "b", "c"]` yield the transcript `"a b c"`. -/
theorem claim_C5_transcript_concatenation
    (fetch : String → Except String (List TranscriptSegment)) (videoId : String)
    (segs : List TranscriptSegment) (h : fetch videoId = Except.ok segs) :
    getTranscript fetch videoId
        = (some (String.intercalate " " (segs.map TranscriptSegment.text)), none)
    ∧ (segs.map TranscriptSegment.text = ["a", "b", "c"] →
        getTranscript fetch videoId = (some "a b c", none)) := by
  constructor
  · simp [getTranscript, h]
  · intro hm
    simp [getTranscript, h, hm]
    rfl

/-- Witness for C5 at the concrete three-segment transcript of the claim. -/
theorem claim_C5_witness :
    getTranscript (fun _ => Except.ok [⟨"a", 1, 0⟩, ⟨"b", 1, 1⟩, ⟨"c", 1, 2⟩]) "vid"
      = (some "a b c", none) :=
  (claim_C5_transcript_concatenation (fun _ => Except.ok [⟨"a", 1, 0⟩, ⟨"b", 1, 1⟩, ⟨"c", 1, 2⟩])
    "vid" [⟨"a", 1, 0⟩, ⟨"b", 1, 1⟩, ⟨"c", 1, 2⟩] rfl).2 rfl

/-- Claim C6: a `none` identifier short-circuits the handler with a 400
failure and no completion call; a transcript retrieval failure
short-circuits with detail `Failed to retrieve transcript: <reason>`
(the upstream reason embedded) and no completion call. -/
theorem claim_C6_short_circuit
    (fetch : String → Except String (List TranscriptSegment))
    (complete : CompletionRequest → Except String ChatResponse)
    (req : Summarize.SummaryRequest) :
    (extractVideoId req.youtube_url = none →
      ∃ d, Summarize.post fetch complete req = (ApiResponse.failure 400 d, ⟨[], 0⟩))
    ∧ (∀ v e, req.youtube_url ≠ "" → req.api_key ≠ "" →
        extractVideoId req.youtube_url = some v → fetch v = Except.error e →
        Summarize.post fetch complete req
          = (ApiResponse.failure 400 ("Failed to retrieve transcript: " ++ e), ⟨[v], 0⟩)) := by
  constructor
  · intro hv
    by_cases hm : req.youtube_url == "" || req.api_key == ""
    · exact ⟨"Please provide both YouTube URL and API key", by simp [Summarize.post, hm]⟩
    · exact ⟨"Invalid YouTube URL. Please check and try again.",
        by simp [Summarize.post, hm, hv]⟩
  · intro v e hu hk hv he
    simp [Summarize.post, hu, hk, hv, getTranscript, he, jsShow]

/-- Witness for C6 at a concrete failing retrieval. -/
theorem claim_C6_witness :
    Summarize.post (fun _ => Except.error "Transcript is disabled on this video")
        (fun _ => Except.ok ⟨[], none⟩)
        ⟨"https://www.youtube.com/watch?v=dQw4w9WgXcQ", "key-1", "English", "short", none,
          "openai"⟩
      = (ApiResponse.failure 400
          "Failed to retrieve transcript: Transcript is disabled on this video",
        ⟨["dQw4w9WgXcQ"], 0⟩) :=
  (claim_C6_short_circuit (fun _ => Except.error "Transcript is disabled on this video")
      (fun _ => Except.ok ⟨[], none⟩)
      ⟨"https://www.youtube.com/watch?v=dQw4w9WgXcQ", "key-1", "English", "short", none,
        "openai"⟩).2
    "dQw4w9WgXcQ" "Transcript is disabled on this video" (by decide) (by decide) rfl rfl

/-- Claim C7: for every successful completion call the handler returns
exactly the shape success flag true, the extracted textual content
(whitespace-trimmed) as summary, the resolved provider model
identifier, and the three usage counters with absent counters
defaulting to zero — together with exactly one completion call in the
log. -/
theorem claim_C7_success_shape
    (fetch : String → Except String (List TranscriptSegment))
    (complete : CompletionRequest → Except String ChatResponse)
    (req : Summarize.SummaryRequest) (v : String) (segs : List TranscriptSegment)
    (config : LLMConfig) (resp : ChatResponse) (content : String)
    (hu : req.youtube_url ≠ "") (hk : req.api_key ≠ "")
    (hv : extractVideoId req.youtube_url = some v)
    (hf : fetch v = Except.ok segs)
    (ht : String.intercalate " " (segs.map TranscriptSegment.text) ≠ "")
    (hc : Summarize.LLM_CONFIGS req.llm_provider = some config)
    (hcall : complete (Summarize.completionArgs config req
        (String.intercalate " " (segs.map TranscriptSegment.text))) = Except.ok resp)
    (hcontent : contentOf resp = some content) (hne : content ≠ "") :
    Summarize.post fetch complete req
      = (ApiResponse.success ⟨true, jsTrim content, config.model,
          ⟨(resp.usage.bind Usage.total_tokens).getD 0,
            (resp.usage.bind Usage.prompt_tokens).getD 0,
            (resp.usage.bind Usage.completion_tokens).getD 0⟩⟩,
        ⟨[v], 1⟩) := by
  simp [Summarize.post, hu, hk, hv, getTranscript, hf, ht, hc, hcall, hcontent, hne]

/-- Witness for C7 at a concrete end-to-end successful request. -/
theorem claim_C7_witness :
    Summarize.post (fun _ => Except.ok [⟨"hello world", 1, 0⟩])
        (fun _ => Except.ok ⟨[⟨some ⟨some "  A fine summary.  "⟩⟩], some ⟨some 10, some 7, some 3⟩⟩)
        ⟨"https://youtu.be/dQw4w9WgXcQ", "sk-1", "English", "short", none, "openai"⟩
      = (ApiResponse.success ⟨true, "A fine summary.", "gpt-4o", ⟨10, 7, 3⟩⟩,
        ⟨["dQw4w9WgXcQ"], 1⟩) :=
  claim_C7_success_shape (fun _ => Except.ok [⟨"hello world", 1, 0⟩])
    (fun _ => Except.ok ⟨[⟨some ⟨some "  A fine summary.  "⟩⟩], some ⟨some 10, some 7, some 3⟩⟩)
    ⟨"https://youtu.be/dQw4w9WgXcQ", "sk-1", "English", "short", none, "openai"⟩
    "dQw4w9WgXcQ" [⟨"hello world", 1, 0⟩] ⟨"gpt-4o", "https://api.openai.com/v1"⟩
    ⟨[⟨some ⟨some "  A fine summary.  "⟩⟩], some ⟨some 10, some 7, some 3⟩⟩
    "  A fine summary.  "
    (by decide) (by decide) rfl rfl (by decide) rfl rfl rfl (by decide)

/-- Claim C8: when the provider returns no textual content at all (no
choice, a null content, or an empty string), the handler produces the
failure detail `No response content from API` and never a success with
an empty summary. -/
theorem claim_C8_empty_content_failure
    (fetch : String → Except String (List TranscriptSegment))
    (complete : CompletionRequest → Except String ChatResponse)
    (req : Summarize.SummaryRequest) (v : String) (segs : List TranscriptSegment)
    (config : LLMConfig) (resp : ChatResponse)
    (hu : req.youtube_url ≠ "") (hk : req.api_key ≠ "")
    (hv : extractVideoId req.youtube_url = some v)
    (hf : fetch v = Except.ok segs)
    (ht : String.intercalate " " (segs.map TranscriptSegment.text) ≠ "")
    (hc : Summarize.LLM_CONFIGS req.llm_provider = some config)
    (hcall : complete (Summarize.completionArgs config req
        (String.intercalate " " (segs.map TranscriptSegment.text))) = Except.ok resp)
    (hcontent : contentOf resp = none ∨ contentOf resp = some "") :
    Summarize.post fetch complete req
      = (ApiResponse.failure 500 "No response content from API", ⟨[v], 1⟩)
    ∧ ∀ r, (Summarize.post fetch complete req).1 ≠ ApiResponse.success r := by
  have hpost : Summarize.post fetch complete req
      = (ApiResponse.failure 500 "No response content from API", ⟨[v], 1⟩) := by
    rcases hcontent with hco | hco <;>
      simp [Summarize.post, hu, hk, hv, getTranscript, hf, ht, hc, hcall, hco]
  exact ⟨hpost, by intro r hr; rw [hpost] at hr; cases hr⟩

/-- Witness for C8 at a concrete empty completion. -/
theorem claim_C8_witness :
    Summarize.post (fun _ => Except.ok [⟨"hello world", 1, 0⟩])
        (fun _ => Except.ok ⟨[], none⟩)
        ⟨"https://youtu.be/dQw4w9WgXcQ", "sk-2", "English", "short", none, "openai"⟩
      = (ApiResponse.failure 500 "No response content from API", ⟨["dQw4w9WgXcQ"], 1⟩) :=
  (claim_C8_empty_content_failure (fun _ => Except.ok [⟨"hello world", 1, 0⟩])
    (fun _ => Except.ok ⟨[], none⟩)
    ⟨"https://youtu.be/dQw4w9WgXcQ", "sk-2", "English", "short", none, "openai"⟩
    "dQw4w9WgXcQ" [⟨"hello world", 1, 0⟩] ⟨"gpt-4o", "https://api.openai.com/v1"⟩
    ⟨[], none⟩
    (by decide) (by decide) rfl rfl (by decide) rfl rfl (Or.inl rfl)).1

/-- Claim C9: the `short` template always instructs a maximum of 4
sentences, plain bullet points without bold formatting and the target
language, whatever the transcript; the `custom` template (with a
non-empty custom prompt) and the `detailed` template are the other two
mutually exclusive branches, `detailed` being the fallback for every
other summary-type value. -/
theorem claim_C9_prompt_templates (transcript lang st c : String) (o : Option String)
    (h1 : st ≠ "short") (h2 : st ≠ "custom") (h3 : c ≠ "") :
    Summarize.createPrompt transcript "short" lang o
        = "Please provide a very concise summary of the following transcript in " ++ lang
          ++ ". Format your response as plain bullet points (without bold formatting), using a maximum of 4 sentences:\n\n"
          ++ transcript
    ∧ Summarize.createPrompt transcript "custom" lang (some c)
        = "Please provide your response in " ++ lang ++ ". User prompt:\n\n" ++ c
          ++ "\n\n\n\nTranscript:\n\n" ++ transcript
    ∧ Summarize.createPrompt transcript st lang o
        = "Please provide a detailed full summary of the following transcript. Provide the summary in "
          ++ lang ++ ":\n\n" ++ transcript := by
  refine ⟨by simp [Summarize.createPrompt], ?_, ?_⟩
  · simp [Summarize.createPrompt, truthyStr, h3]
  · simp [Summarize.createPrompt, truthyStr, h1, h2]

/-- Witness for C9 at concrete template arguments. -/
theorem claim_C9_witness :
    Summarize.createPrompt "t" "short" "English" none
        = "Please provide a very concise summary of the following transcript in English. Format your response as plain bullet points (without bold formatting), using a maximum of 4 sentences:\n\nt"
    ∧ Summarize.createPrompt "t" "custom" "English" (some "x")
        = "Please provide your response in English. User prompt:\n\nx\n\n\n\nTranscript:\n\nt"
    ∧ Summarize.createPrompt "t" "full" "English" none
        = "Please provide a detailed full summary of the following transcript. Provide the summary in English:\n\nt" :=
  claim_C9_prompt_templates "t" "English" "full" "x" none (by decide) (by decide) (by decide)

/-- Claim C10: in the single-provider X.AI revision, every request with
both fields present whose credential does not start with `xai-` is
rejected with the exact credential-format detail, with an empty call
log: neither the transcript collaborator nor the completion
collaborator is invoked, and the rejection happens regardless of
whether the reference is even parseable. -/
theorem claim_C10_xai_key_format
    (fetch : String → Except String (List TranscriptSegment))
    (complete : CompletionRequest → Except String ChatResponse)
    (req : XaiRoute.SummaryRequest)
    (hu : req.youtube_url ≠ "") (hk : req.api_key ≠ "")
    (hx : startsWithChars "xai-".data req.api_key.data = false) :
    XaiRoute.post fetch complete req
      = (ApiResponse.failure 400 "Invalid API key format. X.AI API keys should start with 'xai-'",
        ⟨[], 0⟩) := by
  simp [XaiRoute.post, hu, hk, hx]

/-- Witness for C10 at a concrete request whose key lacks the prefix and
whose reference is not even a parseable URL. -/
theorem claim_C10_witness :
    XaiRoute.post (fun _ => Except.ok []) (fun _ => Except.ok ⟨[], none⟩)
        ⟨"not a url at all", "sk-123", "English", "short", none⟩
      = (ApiResponse.failure 400 "Invalid API key format. X.AI API keys should start with 'xai-'",
        ⟨[], 0⟩) :=
  claim_C10_xai_key_format (fun _ => Except.ok []) (fun _ => Except.ok ⟨[], none⟩)
    ⟨"not a url at all", "sk-123", "English", "short", none⟩
    (by decide) (by decide) rfl
